import Mathlib

/-!
Shallow embedding of the topology validator / multi-artifact compiler core of
the Fabric Network Constructor repository.  The data model and the operations
applyTemplate, addOrganization, updateOrganization, addPeer,
checkConfiguration and generateConfigs are translated from
src/components/NetworkDashboard.tsx.  Entity identifiers, minted in the
source with crypto.randomUUID, are modelled as natural numbers drawn from an
explicit supply of the form ids : Nat → Nat.  The preset catalog, the
validator rule set and the document renderer live in repository files that
are not part of the provided sources; those definitions are modelled from
the specification and are marked as such in their doc comments.
-/

namespace Cons

/-- Lifecycle status of a peer or orderer (informational only). -/
inductive Status where
  | pending
  | running
  | stopped
  | error
deriving DecidableEq

/-- Consensus mode of an orderer: the source field named type, with values
solo and etcdraft. -/
inductive OrdererType where
  | solo
  | etcdraft
deriving DecidableEq

/-- Organization classification: the source field named type, with values
peer and orderer. -/
inductive OrgType where
  | peerOrg
  | ordererOrg
deriving DecidableEq

/-- State-database choice of the network. -/
inductive StateDB where
  | couchDB
  | levelDB
deriving DecidableEq

/-- A peer node: identity, display name, the three network ports and status. -/
structure Peer where
  id : Nat
  name : String
  port : Nat
  status : Status
  couchDBPort : Nat
  chaincodePort : Nat
deriving DecidableEq

/-- Batch-size limits of an orderer. -/
structure BatchSize where
  maxMessageCount : Int
  absoluteMaxBytes : Nat
  preferredMaxBytes : Nat
deriving DecidableEq

/-- An ordering node.  The source field named type is embedded as otype
because type is a reserved word in Lean. -/
structure Orderer where
  id : Nat
  name : String
  domain : String
  port : Nat
  status : Status
  otype : OrdererType
  batchTimeout : String
  batchSize : BatchSize
deriving DecidableEq

/-- An organization.  The source field named type (absent in organizations
made by addOrganization, present in template-instantiated ones) is embedded
as the optional field otype. -/
structure Organization where
  id : Nat
  name : String
  domain : String
  mspID : String
  peers : List Peer
  otype : Option OrgType
  country : String
  state : String
  locality : String
deriving DecidableEq

/-- One organization entry of a preset: name, peer count and classification. -/
structure TemplateOrg where
  name : String
  peerCount : Nat
  otype : OrgType
deriving DecidableEq

/-- A preset (NetworkTemplate in the source): a static topology template. -/
structure NetworkTemplate where
  id : String
  name : String
  description : String
  organizations : List TemplateOrg
  ordererCount : Nat
  channelName : String
  stateDatabase : StateDB
deriving DecidableEq

/-- The Topology Model root (NetworkConfig in the source). -/
structure NetworkConfig where
  organizations : List Organization
  orderers : List Orderer
  channelName : String
  consortium : String
  networkVersion : String
  stateDatabase : StateDB
  template : Option NetworkTemplate := none
deriving DecidableEq

/-- Severity of a validation finding (the source field named status of
ValidationResult, with values error, warning and info). -/
inductive Severity where
  | error
  | warning
  | info
deriving DecidableEq

/-- A validation finding: severity, message and optional fix suggestion. -/
structure ValidationResult where
  status : Severity
  message : String
  fix : Option String := none
deriving DecidableEq

/-- The three generated documents (YAMLConfig in the source). -/
structure YAMLConfig where
  configtx : String
  cryptoConfig : String
  dockerCompose : String
deriving DecidableEq

/-- JavaScript whitespace as used by the source string operations: space,
tab, line feed, carriage return, vertical tab and form feed. -/
def isJSWhitespace (c : Char) : Bool :=
  c == ' ' || c == '\t' || c == '\n' || c == '\r' || c == '\x0b' || c == '\x0c'

/-- Removal of every whitespace character: the replace of the source that
substitutes runs of whitespace with the empty string. -/
def stripWhitespace (s : String) : String :=
  ⟨s.data.filter (fun c => !isJSWhitespace c)⟩

/-- The trim of the source: drop leading and trailing whitespace. -/
def jsTrim (s : String) : String :=
  ⟨((s.data.dropWhile isJSWhitespace).reverse.dropWhile isJSWhitespace).reverse⟩

/-- Lowercasing of the source, restricted to the ASCII case mapping. -/
def toLowerString (s : String) : String :=
  ⟨s.data.map Char.toLower⟩

/-- The initial dashboard state (the useState initial value of the source). -/
def initialConfig : NetworkConfig :=
  { organizations := []
    orderers := []
    channelName := ""
    consortium := "SampleConsortium"
    networkVersion := "2.0"
    stateDatabase := StateDB.couchDB }

/-- The mspID derivation used by both applyTemplate and addOrganization:
the name with whitespace removed, suffixed with MSP. -/
def mspIDFromName (name : String) : String :=
  stripWhitespace name ++ "MSP"

/-- The domain derivation used by both applyTemplate and addOrganization:
the lowercased name with whitespace removed, suffixed with .example.com. -/
def domainFromName (name : String) : String :=
  stripWhitespace (toLowerString name) ++ ".example.com"

/-- The peer literal built at index i (in applyTemplate and addPeer): name
peer followed by the index, port 7051 + i, CouchDB port 5984 + i, chaincode
port 7052 + i, status pending. -/
def mkIndexedPeer (id : Nat) (i : Nat) : Peer :=
  { id := id
    name := "peer" ++ toString i
    port := 7051 + i
    status := Status.pending
    couchDBPort := 5984 + i
    chaincodePort := 7052 + i }

/-- The default batch parameters given to every minted orderer. -/
def defaultBatchSize : BatchSize :=
  { maxMessageCount := 500
    absoluteMaxBytes := 10485760
    preferredMaxBytes := 2097152 }

/-- Instantiation of one template organization.  The argument base is the
position of the organization identifier in the id supply; the peers take the
following peerCount positions. -/
def instOrg (ids : Nat → Nat) (base : Nat) (org : TemplateOrg) : Organization :=
  { id := ids base
    name := org.name
    domain := domainFromName org.name
    mspID := mspIDFromName org.name
    peers := (List.range org.peerCount).map (fun i => mkIndexedPeer (ids (base + 1 + i)) i)
    otype := some org.otype
    country := "US"
    state := "California"
    locality := "San Francisco" }

/-- Instantiation of the template organizations in order, threading the
id-supply position. -/
def instOrgs (ids : Nat → Nat) : Nat → List TemplateOrg → List Organization
  | _, [] => []
  | base, o :: rest => instOrg ids base o :: instOrgs ids (base + 1 + o.peerCount) rest

/-- Number of id-supply positions consumed by the template organizations. -/
def templateSlots (orgs : List TemplateOrg) : Nat :=
  (orgs.map (fun o => 1 + o.peerCount)).sum

/-- Instantiation of the orderers: name orderer followed by the index, the
shared domain, port 7050 + i, etcdraft mode, default batch parameters. -/
def instOrderers (ids : Nat → Nat) (base : Nat) (count : Nat) : List Orderer :=
  (List.range count).map (fun i =>
    { id := ids (base + i)
      name := "orderer" ++ toString i
      domain := "orderer.example.com"
      port := 7050 + i
      status := Status.pending
      otype := OrdererType.etcdraft
      batchTimeout := "2s"
      batchSize := defaultBatchSize })

/-- The applyTemplate operation of the source: mint fresh organizations,
peers and orderers from the template and build the new configuration
(channel name and state database from the template, consortium
SampleConsortium, version 2.0). -/
def applyTemplate (ids : Nat → Nat) (template : NetworkTemplate) : NetworkConfig :=
  { organizations := instOrgs ids 0 template.organizations
    orderers := instOrderers ids (templateSlots template.organizations) template.ordererCount
    channelName := template.channelName
    consortium := "SampleConsortium"
    networkVersion := "2.0"
    stateDatabase := template.stateDatabase
    template := some template }

/-- The applyTemplate operation as a state transition of the dashboard: the
source calls setConfig with a fully fresh record, so the prior configuration
does not occur in the result. -/
def applyTemplateStep (prior : NetworkConfig) (ids : Nat → Nat)
    (template : NetworkTemplate) : NetworkConfig :=
  match prior with
  | _ => applyTemplate ids template

/-- The addOrganization operation of the source: reject a blank name,
otherwise append one organization with trimmed name, derived domain and
mspID, and no peers. -/
def addOrganization (newId : Nat) (newOrgName : String) (cfg : NetworkConfig) :
    NetworkConfig :=
  if jsTrim newOrgName = "" then cfg
  else
    { cfg with
        organizations := cfg.organizations ++
          [{ id := newId
             name := jsTrim newOrgName
             domain := domainFromName newOrgName
             mspID := mspIDFromName newOrgName
             peers := []
             otype := none
             country := "US"
             state := "California"
             locality := "San Francisco" }] }

/-- A field-wise optional update of an organization, embedding the
TypeScript type of partial organization records. -/
structure OrgPatch where
  id : Option Nat := none
  name : Option String := none
  domain : Option String := none
  mspID : Option String := none
  peers : Option (List Peer) := none
  otype : Option (Option OrgType) := none
  country : Option String := none
  state : Option String := none
  locality : Option String := none

/-- The spread merge of the source, field by field. -/
def mergeOrg (org : Organization) (p : OrgPatch) : Organization :=
  { id := p.id.getD org.id
    name := p.name.getD org.name
    domain := p.domain.getD org.domain
    mspID := p.mspID.getD org.mspID
    peers := p.peers.getD org.peers
    otype := p.otype.getD org.otype
    country := p.country.getD org.country
    state := p.state.getD org.state
    locality := p.locality.getD org.locality }

/-- The updateOrganization operation of the source: merge the patch into
every organization whose id matches; everything else is untouched. -/
def updateOrganization (orgId : Nat) (p : OrgPatch) (cfg : NetworkConfig) :
    NetworkConfig :=
  { cfg with
      organizations := cfg.organizations.map (fun org =>
        if org.id = orgId then mergeOrg org p else org) }

/-- The addPeer operation of the source: find the organization; if present,
build the new peer from its current peer count and append it to every
organization with that id. -/
def addPeer (newId : Nat) (orgId : Nat) (cfg : NetworkConfig) : NetworkConfig :=
  match cfg.organizations.find? (fun o => o.id == orgId) with
  | none => cfg
  | some org =>
    let newPeer := mkIndexedPeer newId org.peers.length
    { cfg with
        organizations := cfg.organizations.map (fun o =>
          if o.id = orgId then { o with peers := o.peers ++ [newPeer] } else o) }

/-- The overall status the dashboard derives from a validation result list. -/
inductive OverallStatus where
  | hasErrors
  | hasWarnings
  | clean
deriving DecidableEq

/-- The status derivation of checkConfiguration in the source: an error
notification when some result has severity error, otherwise a warning
notification when the result list is non-empty, otherwise success. -/
def overallStatus (results : List ValidationResult) : OverallStatus :=
  if results.any (fun r => r.status == Severity.error) then OverallStatus.hasErrors
  else if 0 < results.length then OverallStatus.hasWarnings
  else OverallStatus.clean

/-- Modelled from the spec: consensus-document block for one organization
(mspID and domain), part of the renderer in src/utils/yamlGenerator.ts,
which is not among the provided sources. -/
def orgConfigtxBlock (o : Organization) : String :=
  "  - Name: " ++ o.mspID ++ "\n    ID: " ++ o.mspID ++
  "\n    Domain: " ++ o.domain ++ "\n"

/-- Modelled from the spec: consensus-document entry for one orderer address
and its batch parameters, emitted verbatim as plain integers and the stored
duration string. -/
def ordererConfigtxBlock (od : Orderer) : String :=
  "  - Address: " ++ od.domain ++ ":" ++ toString od.port ++
  "\n    BatchTimeout: " ++ od.batchTimeout ++
  "\n    MaxMessageCount: " ++ toString od.batchSize.maxMessageCount ++
  "\n    AbsoluteMaxBytes: " ++ toString od.batchSize.absoluteMaxBytes ++
  "\n    PreferredMaxBytes: " ++ toString od.batchSize.preferredMaxBytes ++ "\n"

/-- Modelled from the spec: consenter entry of an etcdraft orderer (domain
and port). -/
def consenterBlock (od : Orderer) : String :=
  "  - Host: " ++ od.domain ++ "\n    Port: " ++ toString od.port ++ "\n"

/-- Modelled from the spec: the consensus document of the renderer in
src/utils/yamlGenerator.ts (not among the provided sources) lists every
organization by mspID, the orderers in topology order, and a consenter entry
per etcdraft orderer. -/
def genConfigtx (cfg : NetworkConfig) : String :=
  "Channel: " ++ cfg.channelName ++ "\nConsortium: " ++ cfg.consortium ++
  "\nOrganizations:\n" ++ String.join (cfg.organizations.map orgConfigtxBlock) ++
  "Orderer:\n" ++ String.join (cfg.orderers.map ordererConfigtxBlock) ++
  "Consenters:\n" ++
  String.join ((cfg.orderers.filter (fun od => od.otype == OrdererType.etcdraft)).map
    consenterBlock)

/-- Modelled from the spec: the identity document has one
certificate-authority block per organization, keyed by its domain, with an
entry per peer. -/
def genCryptoConfig (cfg : NetworkConfig) : String :=
  "PeerOrgs:\n" ++
  String.join (cfg.organizations.map (fun o =>
    "  - Name: " ++ o.name ++ "\n    Domain: " ++ o.domain ++
    "\n    MSP: " ++ o.mspID ++ "\n" ++
    String.join (o.peers.map (fun p =>
      "    - Peer: " ++ p.name ++ "." ++ o.domain ++ "\n")))) ++
  "OrdererOrgs:\n" ++
  String.join (cfg.orderers.map (fun od =>
    "  - Name: " ++ od.name ++ "\n    Domain: " ++ od.domain ++ "\n"))

/-- Modelled from the spec: the orchestration document has one service block
per peer and per orderer, each exposing the ports of that entity. -/
def genDockerCompose (cfg : NetworkConfig) : String :=
  "services:\n" ++
  String.join (cfg.organizations.map (fun o =>
    String.join (o.peers.map (fun p =>
      "  " ++ p.name ++ "." ++ o.domain ++ ":\n    ports:\n" ++
      "      - " ++ toString p.port ++ "\n" ++
      "      - " ++ toString p.couchDBPort ++ "\n" ++
      "      - " ++ toString p.chaincodePort ++ "\n")))) ++
  String.join (cfg.orderers.map (fun od =>
    "  " ++ od.name ++ "." ++ od.domain ++ ":\n    ports:\n" ++
    "      - " ++ toString od.port ++ "\n"))

/-- Modelled from the spec: generateYAMLConfigs (src/utils/yamlGenerator.ts,
not among the provided sources) is a pure renderer of the topology into the
three documents; it embeds no clock or randomness and does not itself fail. -/
def generateYAMLConfigs (cfg : NetworkConfig) : YAMLConfig :=
  { configtx := genConfigtx cfg
    cryptoConfig := genCryptoConfig cfg
    dockerCompose := genDockerCompose cfg }

/-- The generateConfigs operation of the source: refuse (producing no
documents) when there is no organization, otherwise render the three
documents.  The guard of the source checks only that the organization list
is non-empty. -/
def generateConfigs (cfg : NetworkConfig) : Option YAMLConfig :=
  if cfg.organizations.length = 0 then none
  else some (generateYAMLConfigs cfg)

/-- Modelled from the spec: rule 1 (emptiness) of validateNetworkConfig
(src/utils/networkValidator.ts, not among the provided sources): errors for
zero organizations or zero orderers, a warning per organization without
peers. -/
def emptinessResults (cfg : NetworkConfig) : List ValidationResult :=
  (if cfg.organizations.isEmpty then
    [{ status := Severity.error, message := "at least one organization required" }]
  else []) ++
  (if cfg.orderers.isEmpty then
    [{ status := Severity.error, message := "at least one orderer required" }]
  else []) ++
  (cfg.organizations.filter (fun o => o.peers.isEmpty)).map (fun o =>
    { status := Severity.warning
      message := "organization " ++ o.name ++ " has no peers" })

/-- Modelled from the spec: one error per ordered pair of organizations
sharing an mspID, naming both organizations. -/
def dupMspPairs : List Organization → List ValidationResult
  | [] => []
  | o :: rest =>
    (rest.filter (fun p => p.mspID == o.mspID)).map (fun p =>
      { status := Severity.error
        message := "duplicate mspID " ++ o.mspID ++ " in organizations " ++
          o.name ++ " and " ++ p.name
        fix := some "rename one organization or set an explicit mspID" }) ++
    dupMspPairs rest

/-- Modelled from the spec: all labelled ports of the topology — for every
peer its peer, CouchDB and chaincode ports, then every orderer port, in
topology order; the shared global port namespace of the uniqueness rule. -/
def portEntries (cfg : NetworkConfig) : List (String × Nat) :=
  cfg.organizations.flatMap (fun o =>
    o.peers.flatMap (fun p =>
      [(o.name ++ "/" ++ p.name ++ " peer port", p.port),
       (o.name ++ "/" ++ p.name ++ " couchdb port", p.couchDBPort),
       (o.name ++ "/" ++ p.name ++ " chaincode port", p.chaincodePort)])) ++
  cfg.orderers.map (fun od => (od.name ++ " orderer port", od.port))

/-- Modelled from the spec: one error per ordered pair of entries sharing a
port value, naming the colliding entities and the port. -/
def dupPortPairs : List (String × Nat) → List ValidationResult
  | [] => []
  | e :: rest =>
    (rest.filter (fun f => f.2 == e.2)).map (fun f =>
      { status := Severity.error
        message := "port collision: " ++ e.1 ++ " and " ++ f.1 ++
          " both use " ++ toString e.2
        fix := some "assign distinct ports" }) ++
    dupPortPairs rest

/-- Modelled from the spec: rule 2 (uniqueness): duplicate mspIDs and
duplicate ports over the global port namespace are errors. -/
def uniquenessResults (cfg : NetworkConfig) : List ValidationResult :=
  dupMspPairs cfg.organizations ++ dupPortPairs (portEntries cfg)

/-- Modelled from the spec: rule 3 (consensus sanity): an even etcdraft
orderer count and a multi-orderer solo topology are warnings. -/
def consensusResults (cfg : NetworkConfig) : List ValidationResult :=
  (if (cfg.orderers.any (fun od => od.otype == OrdererType.etcdraft)) = true ∧
      cfg.orderers.length % 2 = 0 ∧ 0 < cfg.orderers.length then
    [{ status := Severity.warning
       message := "even orderer count cannot tolerate an equal split; prefer an odd count"
       fix := some ("increase the orderer count to " ++ toString (cfg.orderers.length + 1)) }]
  else []) ++
  (if (cfg.orderers.any (fun od => od.otype == OrdererType.solo)) = true ∧
      1 < cfg.orderers.length then
    [{ status := Severity.warning
       message := "solo mode ignores all but the first orderer" }]
  else [])

/-- Modelled from the spec: rule 4 (batch-size sanity): a preferred maximum
above the absolute maximum, or a non-positive message count, are errors. -/
def batchResults (cfg : NetworkConfig) : List ValidationResult :=
  cfg.orderers.flatMap (fun od =>
    (if od.batchSize.absoluteMaxBytes < od.batchSize.preferredMaxBytes then
      [{ status := Severity.error
         message := "orderer " ++ od.name ++ ": preferred max bytes exceeds absolute max bytes"
         fix := some "preferred max must not exceed absolute max" }]
    else []) ++
    (if od.batchSize.maxMessageCount ≤ 0 then
      [{ status := Severity.error
         message := "orderer " ++ od.name ++ ": max message count must be positive" }]
    else []))

/-- Modelled from the spec: a character allowed in a DNS-label-safe name
after case folding (lowercase letter, digit or hyphen). -/
def dnsSafeChar (c : Char) : Bool :=
  ('a' ≤ c && c ≤ 'z') || ('0' ≤ c && c ≤ '9') || c == '-'

/-- Modelled from the spec: case-folded DNS-label-safety check of a name. -/
def dnsLabelSafe (s : String) : Bool :=
  (!s.isEmpty) && (toLowerString s).data.all dnsSafeChar

/-- Modelled from the spec: the normalized form suggested by the naming
rule. -/
def normalizeLabel (s : String) : String :=
  ⟨(toLowerString s).data.filter dnsSafeChar⟩

/-- Modelled from the spec: rule 5 (naming sanity): warnings for unsafe
channel or consortium names; never blocking. -/
def namingResults (cfg : NetworkConfig) : List ValidationResult :=
  (if dnsLabelSafe cfg.channelName then []
   else
    [{ status := Severity.warning
       message := "channel name should be a non-empty lowercase DNS label"
       fix := some ("use " ++ normalizeLabel cfg.channelName) }]) ++
  (if dnsLabelSafe cfg.consortium then []
   else
    [{ status := Severity.warning
       message := "consortium name should be a non-empty lowercase DNS label"
       fix := some ("use " ++ normalizeLabel cfg.consortium) }])

/-- Modelled from the spec: validateNetworkConfig
(src/utils/networkValidator.ts, not among the provided sources) evaluates
the five rule classes in their fixed order with no short-circuiting and
never fails. -/
def validateNetworkConfig (cfg : NetworkConfig) : List ValidationResult :=
  emptinessResults cfg ++ uniquenessResults cfg ++ consensusResults cfg ++
  batchResults cfg ++ namingResults cfg

/-- Modelled from the spec: first organization entry of the Two-Organization
Raft preset of the catalog NETWORK_TEMPLATES (src/types.ts, not among the
provided sources). -/
def twoOrgRaftOrgA : TemplateOrg :=
  { name := "Org1", peerCount := 2, otype := OrgType.peerOrg }

/-- Modelled from the spec: second organization entry of the
Two-Organization Raft preset. -/
def twoOrgRaftOrgB : TemplateOrg :=
  { name := "Org2", peerCount := 2, otype := OrgType.peerOrg }

/-- Modelled from the spec: the Two-Organization Raft preset of the catalog
NETWORK_TEMPLATES (src/types.ts, not among the provided sources): two peer
organizations with peer count 2 each and orderer count 3. -/
def twoOrgRaft : NetworkTemplate :=
  { id := "two-org-raft"
    name := "Two-Organization Raft"
    description := "Two organizations with Raft ordering"
    organizations := [twoOrgRaftOrgA, twoOrgRaftOrgB]
    ordererCount := 3
    channelName := "mychannel"
    stateDatabase := StateDB.couchDB }

/-- The orderer ports of a topology, in order. -/
def ordererPorts (cfg : NetworkConfig) : List Nat :=
  cfg.orderers.map (fun od => od.port)

/-- Every configured port of the topology: the three ports of each peer,
then the orderer ports — the global port namespace of the uniqueness rule. -/
def allTopologyPorts (cfg : NetworkConfig) : List Nat :=
  cfg.organizations.flatMap (fun o =>
    o.peers.flatMap (fun p => [p.port, p.couchDBPort, p.chaincodePort])) ++
  ordererPorts cfg

/-- All entity identifiers of a topology: organizations, peers, orderers. -/
def configIds (cfg : NetworkConfig) : List Nat :=
  cfg.organizations.map (fun o => o.id) ++
  cfg.organizations.flatMap (fun o => o.peers.map (fun p => p.id)) ++
  cfg.orderers.map (fun od => od.id)

/-- The mspID derivation exactly as the claim about it is worded: the name
restricted to its alphanumeric characters (whitespace thereby removed),
suffixed with MSP.  Stated for comparison against the derivation of the
source. -/
def specClaimMspID (name : String) : String :=
  ⟨name.data.filter Char.isAlphanum⟩ ++ "MSP"

/-- A concrete organization with no peers, used in concrete scenarios. -/
def orgW : Organization :=
  { id := 0
    name := "Org1"
    domain := "org1.example.com"
    mspID := "Org1MSP"
    peers := []
    otype := none
    country := "US"
    state := "California"
    locality := "San Francisco" }

/-- A second concrete organization, with identifier 1. -/
def orgW2 : Organization :=
  { orgW with id := 1, name := "Org2", domain := "org2.example.com", mspID := "Org2MSP" }

/-- A topology holding one peerless organization and no orderers. -/
def oneEmptyOrgCfg : NetworkConfig :=
  { initialConfig with organizations := [orgW] }

/-- A topology holding two peerless organizations and no orderers. -/
def twoOrgCfgW : NetworkConfig :=
  { initialConfig with organizations := [orgW, orgW2] }

/-! ### Helper lemmas -/

/-- Adding a constant to the elements of a range keeps them distinct. -/
theorem nodup_range_add (a n : Nat) : ((List.range n).map (fun i => a + i)).Nodup :=
  (List.nodup_range n).map (fun x y h => by omega)

/-- Every organization of an instantiated template is the instantiation of
one of the template organizations at some id-supply position. -/
theorem mem_instOrgs {ids : Nat → Nat} {org : Organization} :
    ∀ {b : Nat} {l : List TemplateOrg}, org ∈ instOrgs ids b l →
      ∃ base o, o ∈ l ∧ org = instOrg ids base o := by
  intro b l
  induction l generalizing b with
  | nil => intro h; simp [instOrgs] at h
  | cons hd tl ih =>
    intro h
    simp only [instOrgs, List.mem_cons] at h
    rcases h with h | h
    · exact ⟨b, hd, List.mem_cons_self hd tl, h⟩
    · obtain ⟨base, o, hmem, rfl⟩ := ih h
      exact ⟨base, o, List.mem_cons_of_mem _ hmem, rfl⟩

/-- Within one instantiated organization, each of the three port sequences
is duplicate-free. -/
theorem instOrg_peer_ports (ids : Nat → Nat) (base : Nat) (t : TemplateOrg) :
    ((instOrg ids base t).peers.map (fun p => p.port)).Nodup ∧
    ((instOrg ids base t).peers.map (fun p => p.couchDBPort)).Nodup ∧
    ((instOrg ids base t).peers.map (fun p => p.chaincodePort)).Nodup := by
  refine ⟨?_, ?_, ?_⟩ <;>
    · simp only [instOrg, mkIndexedPeer, List.map_map, Function.comp]
      exact nodup_range_add _ _

/-- The orderer ports of an instantiated template are 7050 plus the running
index. -/
theorem ordererPorts_applyTemplate (ids : Nat → Nat) (t : NetworkTemplate) :
    ordererPorts (applyTemplate ids t) =
      (List.range t.ordererCount).map (fun i => 7050 + i) := by
  simp [ordererPorts, applyTemplate, instOrderers, List.map_map, Function.comp]

/-- Every entity identifier of an instantiated template comes from the id
supply. -/
theorem configIds_applyTemplate_mem (ids : Nat → Nat) (t : NetworkTemplate) :
    ∀ x ∈ configIds (applyTemplate ids t), ∃ k, x = ids k := by
  intro x hx
  simp only [configIds, applyTemplate, List.mem_append] at hx
  rcases hx with (hx | hx) | hx
  · obtain ⟨org, horg, rfl⟩ := List.mem_map.mp hx
    obtain ⟨base, o, _, rfl⟩ := mem_instOrgs horg
    exact ⟨base, rfl⟩
  · obtain ⟨org, horg, hpx⟩ := List.mem_flatMap.mp hx
    obtain ⟨base, o, _, rfl⟩ := mem_instOrgs horg
    obtain ⟨p, hp, rfl⟩ := List.mem_map.mp hpx
    simp only [instOrg, List.mem_map, List.mem_range] at hp
    obtain ⟨i, _, rfl⟩ := hp
    exact ⟨base + 1 + i, rfl⟩
  · obtain ⟨od, hod, rfl⟩ := List.mem_map.mp hx
    simp only [instOrderers, List.mem_map, List.mem_range] at hod
    obtain ⟨i, _, rfl⟩ := hod
    exact ⟨templateSlots t.organizations + i, rfl⟩

/-! ### Claim theorems -/

/-- C1, counterexample: instantiating the Two-Organization Raft preset
yields a topology whose combined list of peer, CouchDB, chaincode and
orderer ports contains duplicates, so the global port-uniqueness property
fails. -/
theorem applyTemplate_global_port_collision :
    ¬ (allTopologyPorts (applyTemplate (fun i => i) twoOrgRaft)).Nodup := by decide

/-- C1, amended: for every preset, the port uniqueness that applyTemplate
guarantees is scoped per entity kind — the orderer ports are pairwise
distinct, and within each single organization the peer ports, the CouchDB
ports, and the chaincode ports are each pairwise distinct; uniqueness across
kinds and across organizations does not hold. -/
theorem applyTemplate_ports_scoped_unique (ids : Nat → Nat) (t : NetworkTemplate) :
    (ordererPorts (applyTemplate ids t)).Nodup ∧
    ∀ org ∈ (applyTemplate ids t).organizations,
      (org.peers.map (fun p => p.port)).Nodup ∧
      (org.peers.map (fun p => p.couchDBPort)).Nodup ∧
      (org.peers.map (fun p => p.chaincodePort)).Nodup := by
  constructor
  · rw [ordererPorts_applyTemplate]
    exact nodup_range_add _ _
  · intro org hmem
    obtain ⟨base, o, _, rfl⟩ := mem_instOrgs hmem
    exact instOrg_peer_ports ids base o

/-- C1, witness: the scoped-uniqueness theorem applied to the
Two-Organization Raft preset at a concrete id supply and a concrete member
organization. -/
theorem applyTemplate_ports_scoped_unique_wit :
    (ordererPorts (applyTemplate (fun i => i) twoOrgRaft)).Nodup ∧
    ((instOrg (fun i => i) 0 twoOrgRaftOrgA).peers.map (fun p => p.port)).Nodup := by
  have h := applyTemplate_ports_scoped_unique (fun i => i) twoOrgRaft
  exact ⟨h.1, (h.2 (instOrg (fun i => i) 0 twoOrgRaftOrgA) (by decide)).1⟩

/-- C2, counterexample: a topology with one organization and zero orderers
makes generateConfigs succeed and produce the documents, although the claim
requires it to fail whenever the orderer list is empty. -/
theorem generateConfigs_empty_orderers_succeeds :
    oneEmptyOrgCfg.orderers = [] ∧ oneEmptyOrgCfg.organizations ≠ [] ∧
    (generateConfigs oneEmptyOrgCfg).isSome = true := by
  refine ⟨rfl, by decide, rfl⟩

/-- C2, amended: generateConfigs fails, producing no documents, exactly when
the topology has zero organizations; the orderer count is never checked, so
every topology with at least one organization yields the three documents
even with zero orderers. -/
theorem generateConfigs_none_iff_no_orgs (cfg : NetworkConfig) :
    generateConfigs cfg = none ↔ cfg.organizations = [] := by
  rcases h : cfg.organizations with _ | ⟨o, os⟩ <;> simp [generateConfigs, h]

/-- C3, counterexample: instantiating the Two-Organization Raft preset and
validating the result yields at least one error finding, so the preset does
not validate clean. -/
theorem twoOrgRaft_validate_has_error :
    (validateNetworkConfig (applyTemplate (fun i => i) twoOrgRaft)).any
      (fun r => r.status == Severity.error) = true := by decide

/-- C3, amended: instantiating the Two-Organization Raft preset and
validating the result yields zero warnings but a non-zero number of errors
(the port-collision rule fires on the overlapping default port blocks). -/
theorem twoOrgRaft_validate_errors_no_warnings :
    (validateNetworkConfig (applyTemplate (fun i => i) twoOrgRaft)).countP
      (fun r => r.status == Severity.error) ≠ 0 ∧
    (validateNetworkConfig (applyTemplate (fun i => i) twoOrgRaft)).countP
      (fun r => r.status == Severity.warning) = 0 := by
  exact ⟨by decide, by decide⟩

/-- C4, counterexample: an organization added with the name Org#1 gets the
mspID Org#1MSP, which differs from the restriction of the name to
alphanumeric characters suffixed with MSP and retains the non-alphanumeric
hash character before that suffix. -/
theorem mspID_keeps_nonalphanumeric :
    ((addOrganization 1 "Org#1" initialConfig).organizations.map (fun o => o.mspID))
      = ["Org#1MSP"] ∧
    specClaimMspID "Org#1" = "Org1MSP" ∧
    ("Org#1MSP" : String) ≠ "Org1MSP" := by
  refine ⟨by decide, by decide, by decide⟩

/-- C4, amended: for every organization created without an explicit
override, the derived mspID is the name with all whitespace removed suffixed
with MSP — the same deterministic derivation in addOrganization and in
preset instantiation — and the part before the suffix contains no
whitespace, though non-alphanumeric non-whitespace characters are kept. -/
theorem mspID_whitespace_free_derivation (newId : Nat) (name : String)
    (cfg : NetworkConfig) (ids : Nat → Nat) (base : Nat) (t : TemplateOrg)
    (h : jsTrim name ≠ "") :
    ((addOrganization newId name cfg).organizations.map (fun o => o.mspID) =
      cfg.organizations.map (fun o => o.mspID) ++ [mspIDFromName name]) ∧
    (instOrg ids base t).mspID = mspIDFromName t.name ∧
    ∀ c ∈ (stripWhitespace name).data, isJSWhitespace c = false := by
  refine ⟨?_, rfl, ?_⟩
  · simp [addOrganization, h]
  · intro c hc
    simp only [stripWhitespace, List.mem_filter] at hc
    simpa using hc.2

/-- C4, witness: the derivation theorem applied to the concrete name Org 1
on the initial configuration. -/
theorem mspID_whitespace_free_derivation_wit :
    ((addOrganization 3 "Org 1" initialConfig).organizations.map (fun o => o.mspID)) =
      initialConfig.organizations.map (fun o => o.mspID) ++ [mspIDFromName "Org 1"] :=
  (mspID_whitespace_free_derivation 3 "Org 1" initialConfig (fun i => i) 0
    twoOrgRaftOrgA (by decide)).1

/-- C5: compiling the same unchanged topology twice produces identical
documents — the compiler is a pure function of the topology with no embedded
clock or randomness, so equal inputs give byte-for-byte equal outputs. -/
theorem generateConfigs_deterministic (c₁ c₂ : NetworkConfig) (h : c₁ = c₂) :
    generateConfigs c₁ = generateConfigs c₂ ∧
    generateYAMLConfigs c₁ = generateYAMLConfigs c₂ := by
  subst h; exact ⟨rfl, rfl⟩

/-- C5, witness: determinism applied to the initial configuration. -/
theorem generateConfigs_deterministic_wit :
    generateConfigs initialConfig = generateConfigs initialConfig :=
  (generateConfigs_deterministic initialConfig initialConfig rfl).1

/-- C6: applying a preset replaces the topology wholesale — the result is
the same whatever the prior topology was, and when the id supply is fresh
with respect to the prior topology, no organization, peer or orderer
identity of the prior topology occurs in the result. -/
theorem applyTemplate_replaces_wholesale (p₁ p₂ : NetworkConfig) (ids : Nat → Nat)
    (t : NetworkTemplate) (h : ∀ i, ids i ∉ configIds p₁) :
    applyTemplateStep p₁ ids t = applyTemplateStep p₂ ids t ∧
    (configIds (applyTemplateStep p₁ ids t)).Disjoint (configIds p₁) := by
  refine ⟨rfl, ?_⟩
  intro x hx hx'
  obtain ⟨k, rfl⟩ := configIds_applyTemplate_mem ids t x hx
  exact h k hx'

/-- C6, witness: wholesale replacement applied to a concrete prior topology
and a shifted id supply that is fresh for it. -/
theorem applyTemplate_replaces_wholesale_wit :
    applyTemplateStep oneEmptyOrgCfg (fun i => i + 100) twoOrgRaft =
      applyTemplateStep initialConfig (fun i => i + 100) twoOrgRaft ∧
    (configIds (applyTemplateStep oneEmptyOrgCfg (fun i => i + 100) twoOrgRaft)).Disjoint
      (configIds oneEmptyOrgCfg) :=
  applyTemplate_replaces_wholesale oneEmptyOrgCfg initialConfig (fun i => i + 100)
    twoOrgRaft (by intro i hmem; simp [configIds, oneEmptyOrgCfg, orgW, initialConfig] at hmem)

/-- C7, counterexample: a result list containing only an info-severity entry
is reported as having warnings, not as clean. -/
theorem overallStatus_info_not_clean :
    ([({ status := Severity.info, message := "informational" } : ValidationResult)].all
      (fun r => r.status == Severity.info) = true) ∧
    overallStatus [{ status := Severity.info, message := "informational" }] =
      OverallStatus.hasWarnings ∧
    overallStatus [{ status := Severity.info, message := "informational" }] ≠
      OverallStatus.clean := by
  refine ⟨by decide, by decide, by decide⟩

/-- C7, amended: the derived overall status is has-errors exactly when some
result has severity error; otherwise it is has-warnings exactly when the
result list is non-empty — info entries included; it is clean exactly for
the empty result list. -/
theorem overallStatus_characterization (results : List ValidationResult) :
    (overallStatus results = OverallStatus.hasErrors ↔
      ∃ r ∈ results, r.status = Severity.error) ∧
    (overallStatus results = OverallStatus.hasWarnings ↔
      (¬ ∃ r ∈ results, r.status = Severity.error) ∧ results ≠ []) ∧
    (overallStatus results = OverallStatus.clean ↔ results = []) := by
  rcases results with _ | ⟨r, rs⟩
  · simp [overallStatus]
  · by_cases h : (r :: rs).any (fun x => x.status == Severity.error) = true
    · have h' := h
      simp at h'
      simp [overallStatus, h]
      tauto
    · rw [Bool.not_eq_true] at h
      have h' := h
      simp at h'
      simp [overallStatus, h]
      tauto

/-- C8: for an organization with n existing peers, addPeer appends exactly
one peer with peer port 7051 + n, CouchDB port 5984 + n and chaincode port
7052 + n; consequently, after two addPeer calls on an initially empty
organization, the second peer port (7052) equals the first chaincode port
(7052) and the global port list has a duplicate. -/
theorem addPeer_port_offsets (cfg : NetworkConfig) (orgId newId : Nat)
    (org : Organization)
    (h : cfg.organizations.find? (fun o => o.id == orgId) = some org) :
    (addPeer newId orgId cfg).organizations =
      cfg.organizations.map (fun o =>
        if o.id = orgId then
          { o with peers := o.peers ++ [mkIndexedPeer newId org.peers.length] }
        else o) ∧
    (mkIndexedPeer newId org.peers.length).port = 7051 + org.peers.length ∧
    (mkIndexedPeer newId org.peers.length).couchDBPort = 5984 + org.peers.length ∧
    (mkIndexedPeer newId org.peers.length).chaincodePort = 7052 + org.peers.length ∧
    ((addPeer 2 0 (addPeer 1 0 oneEmptyOrgCfg)).organizations.flatMap
      (fun o => o.peers.map (fun p => (p.port, p.chaincodePort)))) =
      [(7051, 7052), (7052, 7053)] ∧
    ¬ (allTopologyPorts (addPeer 2 0 (addPeer 1 0 oneEmptyOrgCfg))).Nodup := by
  refine ⟨?_, rfl, rfl, rfl, by decide, by decide⟩
  simp [addPeer, h]

/-- C8, witness: the addPeer theorem applied to the concrete one-organization
topology, giving the concrete port collision. -/
theorem addPeer_port_offsets_wit :
    ((addPeer 2 0 (addPeer 1 0 oneEmptyOrgCfg)).organizations.flatMap
      (fun o => o.peers.map (fun p => (p.port, p.chaincodePort)))) =
      [(7051, 7052), (7052, 7053)] :=
  (addPeer_port_offsets oneEmptyOrgCfg 0 1 orgW (by decide)).2.2.2.2.1

/-- C9: addOrganization with a blank (empty or whitespace-only) name leaves
the topology unchanged; with any other name it appends exactly one
organization with the trimmed name, the lowercased whitespace-free domain
under .example.com, and an empty peer list, leaving every other part of the
topology unchanged. -/
theorem addOrganization_cases (newId : Nat) (name : String) (cfg : NetworkConfig) :
    (jsTrim name = "" → addOrganization newId name cfg = cfg) ∧
    (jsTrim name ≠ "" →
      (addOrganization newId name cfg).organizations =
        cfg.organizations ++
          [{ id := newId
             name := jsTrim name
             domain := domainFromName name
             mspID := mspIDFromName name
             peers := []
             otype := none
             country := "US"
             state := "California"
             locality := "San Francisco" }] ∧
      (addOrganization newId name cfg).orderers = cfg.orderers ∧
      (addOrganization newId name cfg).channelName = cfg.channelName ∧
      (addOrganization newId name cfg).consortium = cfg.consortium ∧
      (addOrganization newId name cfg).networkVersion = cfg.networkVersion ∧
      (addOrganization newId name cfg).stateDatabase = cfg.stateDatabase ∧
      (addOrganization newId name cfg).template = cfg.template) := by
  constructor
  · intro h
    simp [addOrganization, h]
  · intro h
    simp [addOrganization, h]

/-- C9, witness: the addOrganization theorem applied to a whitespace-only
name (no change) and to the concrete name Org 1 (one appended
organization). -/
theorem addOrganization_cases_wit :
    addOrganization 7 "   " initialConfig = initialConfig ∧
    (addOrganization 8 "Org 1" initialConfig).organizations =
      initialConfig.organizations ++
        [{ id := 8
           name := jsTrim "Org 1"
           domain := domainFromName "Org 1"
           mspID := mspIDFromName "Org 1"
           peers := []
           otype := none
           country := "US"
           state := "California"
           locality := "San Francisco" }] :=
  ⟨(addOrganization_cases 7 "   " initialConfig).1 (by decide),
   ((addOrganization_cases 8 "Org 1" initialConfig).2 (by decide)).1⟩

/-- C10: updateOrganization modifies at most the organizations with the
given id — the orderers, channel name, consortium, version, state database
and template reference are unchanged, the organization sequence keeps its
length and order, and every organization whose id differs is kept
identical. -/
theorem updateOrganization_frame (orgId : Nat) (p : OrgPatch) (cfg : NetworkConfig) :
    (updateOrganization orgId p cfg).orderers = cfg.orderers ∧
    (updateOrganization orgId p cfg).channelName = cfg.channelName ∧
    (updateOrganization orgId p cfg).consortium = cfg.consortium ∧
    (updateOrganization orgId p cfg).networkVersion = cfg.networkVersion ∧
    (updateOrganization orgId p cfg).stateDatabase = cfg.stateDatabase ∧
    (updateOrganization orgId p cfg).template = cfg.template ∧
    (updateOrganization orgId p cfg).organizations.length = cfg.organizations.length ∧
    ∀ (i : Nat) (org' : Organization),
      cfg.organizations[i]? = some org' → org'.id ≠ orgId →
      (updateOrganization orgId p cfg).organizations[i]? = some org' := by
  refine ⟨rfl, rfl, rfl, rfl, rfl, rfl, by simp [updateOrganization], ?_⟩
  intro i org' hget hid
  simp [updateOrganization, List.getElem?_map, hget, hid]

/-- C10, witness: the frame theorem applied to a concrete two-organization
topology, updating the organization with id 1 and observing that the one at
position 0 is untouched. -/
theorem updateOrganization_frame_wit :
    (updateOrganization 1 ({} : OrgPatch) twoOrgCfgW).organizations[0]? = some orgW ∧
    (updateOrganization 1 ({} : OrgPatch) twoOrgCfgW).orderers = twoOrgCfgW.orderers := by
  have h := updateOrganization_frame 1 ({} : OrgPatch) twoOrgCfgW
  exact ⟨h.2.2.2.2.2.2.2 0 orgW (by decide) (by decide), h.1⟩

end Cons
